import Mathlib

/-!
Verification development for the Project Guardian PII detector and redactor
(source: detector_full_candidate_name.py).  The Python source is shallowly
embedded: strings become lists of characters, Python values become `PyVal`,
each compiled regular expression becomes a per-position attempt function fed
to a generic left-to-right scan (`reSub` for `re.sub`, `reSearch` for
`re.search`) that mirrors Python's leftmost, non-overlapping matching with
the lookaround and word-boundary semantics of the concrete patterns.
-/

/-- Python strings are modelled as lists of characters (ASCII fragment). -/
abbrev PyStr := List Char

/-- A few characters that the scanner of this file may not spell literally. -/
def aposC : Char := Char.ofNat 39

def quotC : Char := Char.ofNat 34

def bslashC : Char := Char.ofNat 92

def lbraceC : Char := Char.ofNat 123

def rbraceC : Char := Char.ofNat 125

/-- The regex class `\d` (ASCII decimal digits), given by explicit membership
so that hypotheses `isDigitC c = true` can be case-split into the ten digits. -/
def digitChars : List Char := ['0', '1', '2', '3', '4', '5', '6', '7', '8', '9']

def isDigitC (c : Char) : Bool := digitChars.any (fun d => d == c)

/-- The regex class `[A-Za-z]`. -/
def isAlphaC (c : Char) : Bool :=
  ('A' ≤ c && c ≤ 'Z') || ('a' ≤ c && c ≤ 'z')

/-- The regex class `\w` = `[A-Za-z0-9_]`, used by `\b` word boundaries. -/
def isWordC (c : Char) : Bool := isAlphaC c || isDigitC c || c == '_'

/-- The regex class `\s` (ASCII whitespace as matched by Python's `\s`). -/
def isSpaceC (c : Char) : Bool :=
  c == ' ' || c == '\t' || c == '\n' || c == '\r' || c == '\x0b' || c == '\x0c'

/-- First character class of `RE_PASSPORT`: `[A-PR-WYa-pr-wy]`. -/
def passLetterC (c : Char) : Bool :=
  ('A' ≤ c && c ≤ 'P') || ('R' ≤ c && c ≤ 'W') || c == 'Y' ||
  ('a' ≤ c && c ≤ 'p') || ('r' ≤ c && c ≤ 'w') || c == 'y'

/-- Character class `[A-Za-z0-9._-]` of `RE_UPI` (handle and provider tail). -/
def upiClassC (c : Char) : Bool :=
  isAlphaC c || isDigitC c || c == '.' || c == '_' || c == '-'

/-- Character class `[A-Za-z0-9._%+-]` of `RE_EMAIL`'s local part. -/
def emailLocalC (c : Char) : Bool :=
  isAlphaC c || isDigitC c || c == '.' || c == '_' || c == '%' || c == '+' || c == '-'

/-- Character class `[A-Za-z0-9.-]` of `RE_EMAIL`'s domain part. -/
def domClassC (c : Char) : Bool :=
  isAlphaC c || isDigitC c || c == '.' || c == '-'

/-- Lookbehind `(?<!\d)`: the previous character (if any) is not a digit. -/
def prevNotDigit : Option Char → Bool
  | Option.none => true
  | Option.some c => !isDigitC c

/-- Lookahead `(?!\d)` at the head of the remaining input. -/
def headNotDigit : PyStr → Bool
  | [] => true
  | c :: _ => !isDigitC c

/-- Whether the previous character counts as a word character for `\b`
(the start of the string counts as a non-word position). -/
def prevIsWord : Option Char → Bool
  | Option.none => false
  | Option.some c => isWordC c

/-- Whether the head of the remaining input is a word character for `\b`
(the end of the string counts as a non-word position). -/
def headIsWord : PyStr → Bool
  | [] => false
  | c :: _ => isWordC c

/-- `\b` at a match start whose first character is `c`. -/
def startBoundary (prev : Option Char) (c : Char) : Bool :=
  isWordC c != prevIsWord prev

/-- Generic engine for `re.sub`: scan left to right, at each position try the
attempt function `att` (which receives the previous original character for
lookbehind/boundary tests and the remaining input, and returns the
replacement, the last original character it consumed, and the rest of the
input).  On failure emit one character and advance; matches never overlap and
scanning resumes right after a match, as in Python.  `gas` is a structural
bound on the number of steps; since every step consumes at least one input
character, passing the input itself as gas is always sufficient. -/
def reSub (att : Option Char → PyStr → Option (PyStr × Char × PyStr)) :
    PyStr → Option Char → PyStr → PyStr
  | _, _, [] => []
  | [], _, s => s
  | _ :: gs, prev, c :: cs =>
    match att prev (c :: cs) with
    | Option.some (repl, lc, rest) => repl ++ reSub att gs (Option.some lc) rest
    | Option.none => c :: reSub att gs (Option.some c) cs

/-- Generic engine for `re.search`: true iff some position admits a match. -/
def reSearch (att : Option Char → PyStr → Option (PyStr × Char × PyStr)) :
    PyStr → Option Char → PyStr → Bool
  | _, _, [] => false
  | [], _, _ => false
  | _ :: gs, prev, c :: cs =>
    match att prev (c :: cs) with
    | Option.some _ => true
    | Option.none => reSearch att gs (Option.some c) cs

/-- Six mask characters, the fixed middle of several masks. -/
def sixX : PyStr := ['X', 'X', 'X', 'X', 'X', 'X']

/-- Attempt for `RE_TEN_DIGITS = (?<!\d)(\d{10})(?!\d)` together with the
phone mask `d[:2] + "X"*6 + d[-2:]`.  A match needs exactly ten digits not
adjacent to further digits on either side. -/
def phoneAtt (prev : Option Char) : PyStr → Option (PyStr × Char × PyStr)
  | p1 :: p2 :: p3 :: p4 :: p5 :: p6 :: p7 :: p8 :: p9 :: p10 :: rest =>
    if prevNotDigit prev && isDigitC p1 && isDigitC p2 && isDigitC p3 &&
        isDigitC p4 && isDigitC p5 && isDigitC p6 && isDigitC p7 &&
        isDigitC p8 && isDigitC p9 && isDigitC p10 && headNotDigit rest then
      Option.some ([p1, p2] ++ sixX ++ [p9, p10], p10, rest)
    else
      Option.none
  | _ => Option.none

/-- Attempt for `RE_AADHAR = (?<!\d)(\d{12})(?!\d)` together with the aadhar
mask `"XXXX XXXX " + d[-4:]`. -/
def aadharAtt (prev : Option Char) : PyStr → Option (PyStr × Char × PyStr)
  | a1 :: a2 :: a3 :: a4 :: a5 :: a6 :: a7 :: a8 :: a9 :: a10 :: a11 :: a12 :: rest =>
    if prevNotDigit prev && isDigitC a1 && isDigitC a2 && isDigitC a3 &&
        isDigitC a4 && isDigitC a5 && isDigitC a6 && isDigitC a7 &&
        isDigitC a8 && isDigitC a9 && isDigitC a10 && isDigitC a11 &&
        isDigitC a12 && headNotDigit rest then
      Option.some ("XXXX XXXX ".data ++ [a9, a10, a11, a12], a12, rest)
    else
      Option.none
  | _ => Option.none

/-- Four leading digits of the input, for the `\d{4}` groups of the aadhar
normalizer regex. -/
def take4d : PyStr → Option (PyStr × Char × PyStr)
  | a :: b :: c :: d :: rest =>
    if isDigitC a && isDigitC b && isDigitC c && isDigitC d then
      Option.some ([a, b, c, d], d, rest)
    else
      Option.none
  | _ => Option.none

/-- Attempt for the aadhar normalizer
`(?<!\d)(\d{4})\s*(\d{4})\s*(\d{4})(?!\d)`, whose replacement concatenates
the three digit groups (dropping the whitespace).  `\s*` and `\d` are
disjoint classes, so the greedy whitespace runs are forced and the regex
admits no other backtracking. -/
def norm444Att (prev : Option Char) (s : PyStr) : Option (PyStr × Char × PyStr) :=
  if prevNotDigit prev then
    match take4d s with
    | Option.some (g1, _, r1) =>
      match take4d (r1.dropWhile isSpaceC) with
      | Option.some (g2, _, r2) =>
        match take4d (r2.dropWhile isSpaceC) with
        | Option.some (g3, l3, r3) =>
          if headNotDigit r3 then Option.some (g1 ++ g2 ++ g3, l3, r3) else Option.none
        | Option.none => Option.none
      | Option.none => Option.none
    | Option.none => Option.none
  else
    Option.none

/-- Attempt for `RE_PASSPORT = \b([A-PR-WYa-pr-wy][0-9]{7})\b` with the mask
`p[0] + "X"*6 + p[-1]`.  The first character is a word character, so the
leading `\b` means the previous character is not one; the trailing `\b`
likewise means the next character is not one. -/
def passportAtt (prev : Option Char) : PyStr → Option (PyStr × Char × PyStr)
  | c :: d1 :: d2 :: d3 :: d4 :: d5 :: d6 :: d7 :: rest =>
    if passLetterC c && !prevIsWord prev && isDigitC d1 && isDigitC d2 &&
        isDigitC d3 && isDigitC d4 && isDigitC d5 && isDigitC d6 &&
        isDigitC d7 && !headIsWord rest then
      Option.some (c :: sixX ++ [d7], d7, rest)
    else
      Option.none
  | _ => Option.none

/-- Backtracking of the greedy provider tail `[A-Za-z0-9._-]{1,}` of
`RE_UPI` against its trailing `\b`: the largest `k ≤ kmax` such that the
boundary holds between `ps[k-1]` and `ps[k]` (end of input is non-word). -/
def provSearch (ps : PyStr) : Nat → Option Nat
  | 0 => Option.none
  | k + 1 =>
    if isWordC (ps.getD k ' ') != headIsWord (ps.drop (k + 1)) then
      Option.some (k + 1)
    else
      provSearch ps k

/-- Attempt for `RE_UPI = \b([A-Za-z0-9._-]{2,})@([A-Za-z][A-Za-z0-9._-]{1,})\b`
with the mask keeping `min 2 (len handle)` handle characters and the provider.
The handle class excludes `@`, so the greedy handle is exactly the maximal
class run, which must be followed by `@`; the provider is the longest prefix
of the maximal class run after its leading letter that satisfies the final
`\b`. -/
def upiAtt (prev : Option Char) (s : PyStr) : Option (PyStr × Char × PyStr) :=
  match s with
  | [] => Option.none
  | c :: _ =>
    let h := s.takeWhile upiClassC
    let hn := h.length
    if startBoundary prev c && decide (2 ≤ hn) then
      match s.drop hn with
      | a :: p :: ps =>
        if a == '@' && isAlphaC p then
          match provSearch ps (ps.takeWhile upiClassC).length with
          | Option.some k =>
            let keep := min 2 hn
            Option.some
              (h.take keep ++ List.replicate (hn - keep) 'X' ++ '@' :: p :: ps.take k,
               (p :: ps.take k).getLastD p,
               ps.drop k)
          | Option.none => Option.none
        else
          Option.none
      | _ => Option.none
    else
      Option.none

/-- Whether the tail starting right after a candidate domain dot parses as
`[A-Za-z]{2,24}\b`: the greedy letter run must have length 2..24 (a shorter
take would be followed by a letter and break the `\b`) and be followed by a
non-word position. -/
def tldOk (ts : PyStr) : Bool :=
  let L := (ts.takeWhile isAlphaC).length
  decide (2 ≤ L) && decide (L ≤ 24) && !headIsWord (ts.drop L)

/-- Backtracking of the greedy `[A-Za-z0-9.-]{1,255}` of `RE_EMAIL` against
`\.[A-Za-z]{2,24}\b`: the largest `a ≤ amax` such that `ds[a] = '.'` and the
letters after that dot satisfy `tldOk`. -/
def domSearch (ds : PyStr) : Nat → Option Nat
  | 0 => Option.none
  | a + 1 =>
    if ds.getD (a + 1) 'x' == '.' && tldOk (ds.drop (a + 2)) then
      Option.some (a + 1)
    else
      domSearch ds a

/-- Length of the `[A-Za-z]{2,24}` top-level segment after the dot chosen by
`domSearch`. -/
def tldLen (ts : PyStr) : Nat := (ts.takeWhile isAlphaC).length

/-- Attempt for
`RE_EMAIL = \b([A-Za-z0-9._%+-]{1,64})@([A-Za-z0-9.-]{1,255}\.[A-Za-z]{2,24})\b`
with the mask keeping `min 2 (len local)` local characters and the whole
domain.  The local class excludes `@`, so the local part is the maximal class
run (of length 1..64) followed by `@`. -/
def emailAtt (prev : Option Char) (s : PyStr) : Option (PyStr × Char × PyStr) :=
  match s with
  | [] => Option.none
  | c :: _ =>
    let l := s.takeWhile emailLocalC
    let ln := l.length
    if startBoundary prev c && decide (1 ≤ ln) && decide (ln ≤ 64) then
      match s.drop ln with
      | a :: ds' =>
        if a == '@' then
          let ds := ds'
          let dr := (ds.takeWhile domClassC).length
          match domSearch ds (min dr 255) with
          | Option.some adot =>
            let L := tldLen (ds.drop (adot + 1))
            let dom := ds.take (adot + 1 + L)
            let keep := min 2 ln
            Option.some
              (l.take keep ++ List.replicate (ln - keep) 'X' ++ '@' :: dom,
               dom.getLastD a,
               ds.drop (adot + 1 + L))
          | Option.none => Option.none
        else
          Option.none
      | [] => Option.none
    else
      Option.none

/-- Attempt for `RE_IPV4 = \b((?:\d{1,3}\.){3}\d{1,3})\b` with the mask that
replaces the final octet by `X`.  Each `\d{1,3}` must be an entire digit run
of length 1..3 (a shorter take would be followed by a digit where `\.` or
`\b` is required). -/
def ipv4Att (prev : Option Char) (s : PyStr) : Option (PyStr × Char × PyStr) :=
  if prevIsWord prev then
    Option.none
  else
    let r1 := (s.takeWhile isDigitC).length
    if decide (1 ≤ r1) && decide (r1 ≤ 3) && s.getD r1 'x' == '.' then
      let s2 := s.drop (r1 + 1)
      let r2 := (s2.takeWhile isDigitC).length
      if decide (1 ≤ r2) && decide (r2 ≤ 3) && s2.getD r2 'x' == '.' then
        let s3 := s2.drop (r2 + 1)
        let r3 := (s3.takeWhile isDigitC).length
        if decide (1 ≤ r3) && decide (r3 ≤ 3) && s3.getD r3 'x' == '.' then
          let s4 := s3.drop (r3 + 1)
          let r4 := (s4.takeWhile isDigitC).length
          if decide (1 ≤ r4) && decide (r4 ≤ 3) && !headIsWord (s4.drop r4) then
            Option.some
              (s.take (r1 + 1 + r2 + 1 + r3 + 1) ++ ['X'],
               s4.getD (r4 - 1) '0',
               s4.drop r4)
          else
            Option.none
        else
          Option.none
      else
        Option.none
    else
      Option.none

/-- `mask_phone_digits` from the source: `RE_TEN_DIGITS.sub` keeping the
first two and last two digits. -/
def mask_phone_digits (s : PyStr) : PyStr := reSub phoneAtt s Option.none s

/-- `mask_aadhar_digits` from the source: first collapse an optional 4-4-4
whitespace grouping, then `RE_AADHAR.sub` exposing only the last 4 digits. -/
def mask_aadhar_digits (s : PyStr) : PyStr :=
  let sn := reSub norm444Att s Option.none s
  reSub aadharAtt sn Option.none sn

/-- `mask_passport_in` from the source. -/
def mask_passport_in (s : PyStr) : PyStr := reSub passportAtt s Option.none s

/-- `mask_upi_in` from the source. -/
def mask_upi_in (s : PyStr) : PyStr := reSub upiAtt s Option.none s

/-- `mask_email_str` from the source. -/
def mask_email_str (s : PyStr) : PyStr := reSub emailAtt s Option.none s

/-- `mask_ip_in` from the source. -/
def mask_ip_in (s : PyStr) : PyStr := reSub ipv4Att s Option.none s

/-- `hard_redact` from the source (ignores its argument). -/
def hard_redact : PyStr := "[REDACTED_PII]".data

/-- `RE_TEN_DIGITS.search` as a boolean. -/
def tenDigitsSearch (s : PyStr) : Bool := reSearch phoneAtt s Option.none s

/-- `RE_AADHAR.search` as a boolean. -/
def aadharSearch (s : PyStr) : Bool := reSearch aadharAtt s Option.none s

/-- `RE_PASSPORT.search` as a boolean. -/
def passportSearch (s : PyStr) : Bool := reSearch passportAtt s Option.none s

/-- `RE_UPI.search` as a boolean. -/
def upiSearch (s : PyStr) : Bool := reSearch upiAtt s Option.none s

/-- `RE_EMAIL.search` as a boolean. -/
def emailSearch (s : PyStr) : Bool := reSearch emailAtt s Option.none s

/-- `RE_IPV4.search` as a boolean. -/
def ipv4Search (s : PyStr) : Bool := reSearch ipv4Att s Option.none s

/-- `re.sub(r'\s+', '', s)`: remove every whitespace character. -/
def stripAllWs (s : PyStr) : PyStr := s.filter (fun c => !isSpaceC c)

example : mask_phone_digits ("call 9876543210 now".data) = "call 98XXXXXX10 now".data := by decide

example : mask_phone_digits ("12345678901".data) = "12345678901".data := by decide

example : mask_aadhar_digits ("1234 5678 9012".data) = "XXXX XXXX 9012".data := by decide

example : mask_aadhar_digits ("123456789012".data) = "XXXX XXXX 9012".data := by decide

example : mask_aadhar_digits ("123456 789012".data) = "123456 789012".data := by decide

example : aadharSearch (stripAllWs ("123456 789012".data)) = true := by decide

example : mask_passport_in ("X1234567".data) = "X1234567".data := by decide

example : mask_passport_in ("I1234567".data) = "IXXXXXX7".data := by decide

example : mask_upi_in ("alice@okbank pay".data) = "alXXX@okbank pay".data := by decide

example : mask_upi_in ("alice@example.com".data) = "alXXX@example.com".data := by decide

example : mask_email_str ("hi alice@example.com bye".data) = "hi alXXX@example.com bye".data := by decide

example : mask_email_str ("a+bc@example.com".data) = "a+XX@example.com".data := by decide

example : mask_upi_in ("a+bc@example.com".data) = "a+bc@example.com".data := by decide

example : mask_ip_in ("ip 192.168.1.1 ok".data) = "ip 192.168.1.X ok".data := by decide

example : ipv4Search ("192.168.1.1".data) = true := by decide

example : emailSearch ("a@b.com".data) = true := by decide

example : upiSearch ("a@b.com".data) = false := by decide

example : tenDigitsSearch ("192.168.1.1".data) = false := by decide

/-- Python values as they occur in a parsed record: `None`, booleans,
integers, strings, and (tolerated) nested lists and objects. -/
inductive PyVal where
  | none : PyVal
  | bool : Bool → PyVal
  | int : Int → PyVal
  | str : PyStr → PyVal
  | list : List PyVal → PyVal
  | dict : List (PyStr × PyVal) → PyVal

/-- A record: Python's field-name-to-value mapping. -/
abbrev PyDict := List (PyStr × PyVal)

/-- Decimal digits of a natural number, as `str` produces them. -/
def natStr (n : Nat) : PyStr := Nat.toDigits 10 n

/-- Python `str` of an integer. -/
def intStr : Int → PyStr
  | Int.ofNat n => natStr n
  | Int.negSucc n => '-' :: natStr (n + 1)

/- Python `repr` (string escaping is not modelled; quotes use the
apostrophe as CPython does for strings without special characters), with the
comma-space joins of list and dict reprs as mutual helpers. -/
mutual

/-- Python `repr` of a value. -/
def pyReprV : PyVal → PyStr
  | PyVal.none => "None".data
  | PyVal.bool true => "True".data
  | PyVal.bool false => "False".data
  | PyVal.int n => intStr n
  | PyVal.str s => aposC :: s ++ [aposC]
  | PyVal.list xs => '[' :: pyReprL xs ++ [']']
  | PyVal.dict kvs => lbraceC :: pyReprKV kvs ++ [rbraceC]

/-- Comma-space joined reprs of list elements. -/
def pyReprL : List PyVal → PyStr
  | [] => []
  | [x] => pyReprV x
  | x :: xs => pyReprV x ++ ',' :: ' ' :: pyReprL xs

/-- Comma-space joined reprs of dict entries. -/
def pyReprKV : List (PyStr × PyVal) → PyStr
  | [] => []
  | [kv] => aposC :: kv.1 ++ aposC :: ':' :: ' ' :: pyReprV kv.2
  | kv :: kvs => (aposC :: kv.1 ++ aposC :: ':' :: ' ' :: pyReprV kv.2) ++ ',' :: ' ' :: pyReprKV kvs

end

/-- Python `str`: identity on strings, `repr`-based text otherwise. -/
def pyStr : PyVal → PyStr
  | PyVal.str s => s
  | v => pyReprV v

/-- Python truthiness of a value. -/
def pyTruthy : PyVal → Bool
  | PyVal.none => false
  | PyVal.bool b => b
  | PyVal.int n => !(n == 0)
  | PyVal.str s => !s.isEmpty
  | PyVal.list xs => !xs.isEmpty
  | PyVal.dict kvs => !kvs.isEmpty

/-- `str(value or "")`: the stringified value, or empty for falsy values. -/
def pyStrOr (v : PyVal) : PyStr := if pyTruthy v then pyStr v else []

/-- `dict.get`: the value under a key, `None` when absent. -/
def dGet (rec : PyDict) (k : PyStr) : PyVal :=
  match rec.find? (fun kv => kv.1 == k) with
  | Option.some kv => kv.2
  | Option.none => PyVal.none

/-- Membership of a key in one of the fixed key sets. -/
def memKeys (ks : List PyStr) (k : PyStr) : Bool := ks.any (fun x => x == k)

/-- `NUMERIC_ID_KEYS` from the source. -/
def NUMERIC_ID_KEYS : List PyStr :=
  ["order_id".data, "transaction_id".data, "product_id".data,
   "booking_reference".data, "customer_id".data, "warehouse_code".data,
   "ticket_id".data, "gst_number".data, "state_code".data]

/-- `B_NAME_KEYS` from the source. -/
def B_NAME_KEYS : List PyStr := ["name".data]

/-- `B_FIRST` from the source. -/
def B_FIRST : PyStr := "first_name".data

/-- `B_LAST` from the source. -/
def B_LAST : PyStr := "last_name".data

/-- `B_EMAIL_KEYS` from the source. -/
def B_EMAIL_KEYS : List PyStr := ["email".data, "username".data]

/-- `B_ADDRESS_KEYS` from the source. -/
def B_ADDRESS_KEYS : List PyStr := ["address".data]

/-- `B_ADDR_PARTS` from the source. -/
def B_ADDR_PARTS : List PyStr := ["city".data, "state".data, "pin_code".data]

/-- `B_DEVICE_KEYS` from the source. -/
def B_DEVICE_KEYS : List PyStr := ["device_id".data]

/-- `B_IP_KEYS` from the source. -/
def B_IP_KEYS : List PyStr := ["ip_address".data]

/-- Python `str.strip()` (ASCII whitespace). -/
def stripStr (s : PyStr) : PyStr :=
  ((s.dropWhile isSpaceC).reverse.dropWhile isSpaceC).reverse

/-- Whitespace-separated tokens, as produced by `re.split(r'\s+', s)` on a
stripped string with empty tokens discarded. -/
def wordsAux (acc : PyStr) : PyStr → List PyStr
  | [] => if acc.isEmpty then [] else [acc.reverse]
  | c :: cs =>
    if isSpaceC c then
      if acc.isEmpty then wordsAux [] cs else acc.reverse :: wordsAux [] cs
    else
      wordsAux (c :: acc) cs

/-- All nonempty whitespace-separated tokens of a string. -/
def wordsOf (s : PyStr) : List PyStr := wordsAux [] s

/-- `re.fullmatch(r"[A-Za-z][A-Za-z.'-]*", t)` as a boolean. -/
def isNameTok : PyStr → Bool
  | [] => false
  | c :: cs => isAlphaC c && cs.all (fun d => isAlphaC d || d == '.' || d == aposC || d == '-')

/-- `looks_like_full_name` on an already-stringified value. -/
def looksLikeFullNameStr (s : PyStr) : Bool :=
  decide (2 ≤ ((wordsOf (stripStr s)).filter isNameTok).length)

/-- `looks_like_full_name` from the source. -/
def looks_like_full_name (v : PyVal) : Bool := looksLikeFullNameStr (pyStrOr v)

/-- `valid_email` from the source: `RE_EMAIL.search(str(val) or "")`. -/
def valid_email (v : PyVal) : Bool := emailSearch (pyStr v)

/-- Maximal alternating whitespace/non-whitespace segments, as produced by
`re.split(r'(\s+)', s)` with empty segments discarded (an empty segment is
kept verbatim by the source's token loop, so discarding it is
join-equivalent). -/
def segsAux (cur : PyStr) (curWs : Bool) : PyStr → List PyStr
  | [] => [cur.reverse]
  | c :: cs =>
    if isSpaceC c == curWs then
      segsAux (c :: cur) curWs cs
    else
      cur.reverse :: segsAux [c] (isSpaceC c) cs

/-- Segments of a string (whitespace runs and non-whitespace runs). -/
def segsOf : PyStr → List PyStr
  | [] => []
  | c :: cs => segsAux [c] (isSpaceC c) cs

/-- One token of `mask_name_full`: whitespace runs and non-name tokens pass
through, name-shaped tokens keep their first character. -/
def maskNameTok (t : PyStr) : PyStr :=
  if !t.isEmpty && t.all isSpaceC then t
  else if isNameTok t then t.headD 'X' :: List.replicate (t.length - 1) 'X'
  else t

/-- `mask_name_full` from the source. -/
def mask_name_full (s : PyStr) : PyStr := ((segsOf s).map maskNameTok).flatten

/-- The first/last-name mask `sval[:1] + "X"*max(0, len(sval)-1)`. -/
def maskHeadRest : PyStr → PyStr
  | [] => []
  | c :: cs => c :: List.replicate cs.length 'X'

/-- `AFound`: the per-value detection flags of `detect_a_in_value`. -/
structure AFound where
  phone : Bool
  aadhar : Bool
  passport : Bool
  upi : Bool
deriving DecidableEq

/-- `detect_a_in_value` from the source: phone and aadhar patterns are only
scanned outside `NUMERIC_ID_KEYS` (aadhar after removing all whitespace);
passport and UPI patterns are always scanned. -/
def detect_a_in_value (key : PyStr) (value : PyVal) : AFound :=
  let s := pyStrOr value
  let ex := memKeys NUMERIC_ID_KEYS key
  { phone := !ex && tenDigitsSearch s
    aadhar := !ex && aadharSearch (stripAllWs s)
    passport := passportSearch s
    upi := upiSearch s }

/-- `BFlags`: the quasi-identifier signal booleans of `count_b_signals`. -/
structure BFlags where
  name : Bool
  email : Bool
  address : Bool
  device_or_ip : Bool
deriving DecidableEq

/-- `count_b_signals` from the source: (signal count, flags, number of
present address-part fields, presence of a unified address field). -/
def count_b_signals (rec : PyDict) : Nat × BFlags × Nat × Bool :=
  let nameF :=
    if pyTruthy (dGet rec ("name".data)) && looks_like_full_name (dGet rec ("name".data)) then
      true
    else
      pyTruthy (dGet rec B_FIRST) && pyTruthy (dGet rec B_LAST)
  let emailF :=
    (pyTruthy (dGet rec ("email".data)) && valid_email (dGet rec ("email".data))) ||
    (pyTruthy (dGet rec ("username".data)) && valid_email (dGet rec ("username".data)))
  let ap := (B_ADDR_PARTS.filter (fun k => pyTruthy (dGet rec k))).length
  let hadr := pyTruthy (dGet rec ("address".data))
  let addrF := hadr || decide (2 ≤ ap)
  let devF :=
    pyTruthy (dGet rec ("device_id".data)) ||
    (pyTruthy (dGet rec ("ip_address".data)) && ipv4Search (pyStr (dGet rec ("ip_address".data))))
  let cnt :=
    (if nameF then 1 else 0) + (if emailF then 1 else 0) +
    (if addrF then 1 else 0) + (if devF then 1 else 0)
  (cnt, ⟨nameF, emailF, addrF, devF⟩, ap, hadr)

/-- The B-class (combination) stage of `redact_value`, applied to the
always-masked string `s1`; `before` is the stringified original value. -/
def bMask (key : PyStr) (before s1 : PyStr) (ap : Nat) (hadr : Bool) : PyStr :=
  let s2 :=
    if memKeys B_NAME_KEYS key && looksLikeFullNameStr before then mask_name_full before else s1
  let s3 := if key == B_FIRST || key == B_LAST then maskHeadRest s2 else s2
  let s4 := if memKeys B_EMAIL_KEYS key then mask_email_str s3 else s3
  let s5 :=
    if memKeys B_ADDRESS_KEYS key then hard_redact
    else if memKeys B_ADDR_PARTS key then
      (if hadr || decide (2 ≤ ap) then hard_redact else s4)
    else s4
  let s6 := if memKeys B_DEVICE_KEYS key then hard_redact else s5
  if memKeys B_IP_KEYS key then mask_ip_in s6 else s6

/-- `redact_value` on a stringified value: the four A-class masks always run
(phone, aadhar, passport, UPI, in that order); the B-class masks run only
when the combination flag is set. -/
def redactStr (key before : PyStr) (db : Bool) (ap : Nat) (hadr : Bool) : PyStr :=
  let s1 := mask_upi_in (mask_passport_in (mask_aadhar_digits (mask_phone_digits before)))
  if db then bMask key before s1 ap hadr else s1

/-- `redact_value` from the source: `None` passes through, every other value
is stringified and redacted. -/
def redact_value (key : PyStr) (value : PyVal) (db : Bool) (ap : Nat) (hadr : Bool) : PyVal :=
  match value with
  | PyVal.none => PyVal.none
  | v => PyVal.str (redactStr key (pyStr v) db ap hadr)

/-- The record-level direct-hit flag of `process_record`:
`any(any(detect_a_in_value(k, v).values()) for k, v in obj.items())`. -/
def a_hit_of (rec : PyDict) : Bool :=
  rec.any (fun kv =>
    let f := detect_a_in_value kv.1 kv.2
    f.phone || f.aadhar || f.passport || f.upi)

/-- The verdict context of `process_record`:
(is_pii, do_b, addr_parts, has_addr_field), including the email-only
override that forces both `is_pii` and `do_b` to false. -/
def record_ctx (rec : PyDict) : Bool × Bool × Nat × Bool :=
  let a := a_hit_of rec
  let bc := count_b_signals rec
  let do_b0 := decide (2 ≤ bc.1)
  let ov := bc.2.1.email && !(bc.2.1.name || bc.2.1.address || bc.2.1.device_or_ip)
  let do_b := if ov then false else do_b0
  let is_pii := if ov then false else a || do_b0
  (is_pii, do_b, bc.2.2.1, bc.2.2.2)

/-- `process_record` from the source: the redacted record and the verdict. -/
def process_record (rec : PyDict) : PyDict × Bool :=
  let c := record_ctx rec
  (rec.map (fun kv => (kv.1, redact_value kv.1 kv.2 c.2.1 c.2.2.1 c.2.2.2)), c.1)

example : pyStr (PyVal.int 42) = "42".data := rfl

example : pyStr (PyVal.bool true) = "True".data := rfl

example : pyTruthy (PyVal.str []) = false := by decide

example :
    (process_record [("email".data, PyVal.str ("a@b.com".data))]).2 = false := by decide

example :
    (process_record [("email".data, PyVal.str ("a@b.com".data))]).1 =
      [("email".data, PyVal.str ("a@b.com".data))] := rfl

example :
    (process_record [("phone".data, PyVal.str ("9876543210".data))]).2 = true := by decide

example :
    (process_record [("phone".data, PyVal.str ("9876543210".data))]).1 =
      [("phone".data, PyVal.str ("98XXXXXX10".data))] := rfl

example :
    (process_record [("order_id".data, PyVal.str ("9876543210".data))]).2 = false := by decide

example :
    (process_record [("name".data, PyVal.str ("Alice Wonder".data)),
                     ("email".data, PyVal.str ("alice@example.com".data))]).2 = true := by decide

example :
    (process_record [("name".data, PyVal.str ("Alice Wonder".data)),
                     ("email".data, PyVal.str ("alice@example.com".data))]).1 =
      [("name".data, PyVal.str ("AXXXX WXXXXX".data)),
       ("email".data, PyVal.str ("alXXX@example.com".data))] := rfl

/-- JSON insignificant whitespace. -/
def isJsonWs (c : Char) : Bool := c == ' ' || c == '\t' || c == '\n' || c == '\r'

/-- Skip JSON whitespace. -/
def skipWs (s : PyStr) : PyStr := s.dropWhile isJsonWs

/-- Decode one escape character of a JSON string (unicode escapes are not
modelled and make the parse fail). -/
def escChar (c : Char) : Option Char :=
  if c == quotC then Option.some quotC
  else if c == bslashC then Option.some bslashC
  else if c == '/' then Option.some '/'
  else if c == 'b' then Option.some (Char.ofNat 8)
  else if c == 'f' then Option.some (Char.ofNat 12)
  else if c == 'n' then Option.some '\n'
  else if c == 'r' then Option.some '\r'
  else if c == 't' then Option.some '\t'
  else Option.none

/-- Parse the body of a JSON string after the opening quote, returning the
decoded text and the input after the closing quote. -/
def parseQStr : PyStr → Option (PyStr × PyStr)
  | [] => Option.none
  | c :: cs =>
    if c == quotC then Option.some ([], cs)
    else if c == bslashC then
      match cs with
      | e :: cs2 =>
        match escChar e with
        | Option.some ec => (parseQStr cs2).map (fun tr => (ec :: tr.1, tr.2))
        | Option.none => Option.none
      | [] => Option.none
    else
      (parseQStr cs).map (fun tr => (c :: tr.1, tr.2))

/-- Digit value of an ASCII digit character. -/
def digitVal (c : Char) : Nat := c.toNat - 48

/-- Parse a JSON integer (floats — a fraction or exponent part — are not
modelled and make the parse fail, where Python would return a float). -/
def parseNum (s : PyStr) : Option (Int × PyStr) :=
  let core := fun (t : PyStr) =>
    let ds := t.takeWhile isDigitC
    if ds.isEmpty then Option.none
    else if decide (2 ≤ ds.length) && ds.headD '0' == '0' then Option.none
    else
      match (t.drop ds.length).headD ' ' with
      | '.' => Option.none
      | 'e' => Option.none
      | 'E' => Option.none
      | _ => Option.some (ds.foldl (fun acc c => acc * 10 + digitVal c) 0, t.drop ds.length)
  match s with
  | '-' :: rest => (core rest).map (fun nr => (-(nr.1 : Int), nr.2))
  | _ => (core s).map (fun nr => ((nr.1 : Int), nr.2))

/-- Parse mode: a single value, the tail of an array after at least one
element is expected, or the tail of an object. -/
inductive JMode where
  | val : JMode
  | arr : List PyVal → JMode
  | obj : List (PyStr × PyVal) → JMode

/-- Fuel-bounded recursive-descent JSON parser, modelling the collaborator
`json.loads` on the fragment without floats and unicode escapes. -/
def parseJ : Nat → JMode → PyStr → Option (PyVal × PyStr)
  | 0, _, _ => Option.none
  | f + 1, JMode.val, s =>
    match skipWs s with
    | [] => Option.none
    | c :: cs =>
      if c == lbraceC then
        match skipWs cs with
        | d :: ds => if d == rbraceC then Option.some (PyVal.dict [], ds) else parseJ f (JMode.obj []) cs
        | [] => Option.none
      else if c == '[' then
        match skipWs cs with
        | d :: ds => if d == ']' then Option.some (PyVal.list [], ds) else parseJ f (JMode.arr []) cs
        | [] => Option.none
      else if c == quotC then
        (parseQStr cs).map (fun tr => (PyVal.str tr.1, tr.2))
      else if c == 't' then
        match cs with
        | 'r' :: 'u' :: 'e' :: r => Option.some (PyVal.bool true, r)
        | _ => Option.none
      else if c == 'f' then
        match cs with
        | 'a' :: 'l' :: 's' :: 'e' :: r => Option.some (PyVal.bool false, r)
        | _ => Option.none
      else if c == 'n' then
        match cs with
        | 'u' :: 'l' :: 'l' :: r => Option.some (PyVal.none, r)
        | _ => Option.none
      else
        (parseNum (c :: cs)).map (fun nr => (PyVal.int nr.1, nr.2))
  | f + 1, JMode.arr acc, s =>
    match parseJ f JMode.val s with
    | Option.some (v, r) =>
      match skipWs r with
      | ',' :: rs => parseJ f (JMode.arr (acc ++ [v])) rs
      | ']' :: rs => Option.some (PyVal.list (acc ++ [v]), rs)
      | _ => Option.none
    | Option.none => Option.none
  | f + 1, JMode.obj acc, s =>
    match skipWs s with
    | c :: cs =>
      if c == quotC then
        match parseQStr cs with
        | Option.some (k, r) =>
          match skipWs r with
          | ':' :: rs =>
            match parseJ f JMode.val rs with
            | Option.some (v, r2) =>
              match skipWs r2 with
              | ',' :: rs2 => parseJ f (JMode.obj (acc ++ [(k, v)])) rs2
              | d :: rs2 =>
                if d == rbraceC then Option.some (PyVal.dict (acc ++ [(k, v)]), rs2) else Option.none
              | [] => Option.none
            | Option.none => Option.none
          | _ => Option.none
        | Option.none => Option.none
      else
        Option.none
    | [] => Option.none

/-- `json.loads`, modelled: parse one JSON value surrounded by optional
whitespace, failing on trailing input. -/
def json_loads (s : PyStr) : Option PyVal :=
  match parseJ (2 * s.length + 4) JMode.val s with
  | Option.some (v, r) => if (skipWs r).isEmpty then Option.some v else Option.none
  | Option.none => Option.none

/-- Python `txt.replace('\x22\x22', '\x22')`: collapse doubled quotes, left
to right, non-overlapping. -/
def replaceDQ : PyStr → PyStr
  | [] => []
  | [c] => [c]
  | c :: d :: rest =>
    if c == quotC && d == quotC then quotC :: replaceDQ rest
    else c :: replaceDQ (d :: rest)

/-- Python `txt.strip('\x22')`: remove quote characters from both ends. -/
def stripQuotes (s : PyStr) : PyStr :=
  ((s.dropWhile (fun c => c == quotC)).reverse.dropWhile (fun c => c == quotC)).reverse

/-- `safe_json_load` from the source: parse the stripped raw text; on
failure retry after collapsing doubled quotes and stripping outer quotes; on
a second failure return the empty mapping. -/
def safe_json_load (raw : PyStr) : PyVal :=
  let txt := stripStr raw
  match json_loads txt with
  | Option.some v => v
  | Option.none =>
    let txt2 := stripQuotes (replaceDQ txt)
    match json_loads txt2 with
    | Option.some v => v
    | Option.none => PyVal.dict []

/-- Whether a parsed payload is a field mapping. -/
def isDictVal : PyVal → Bool
  | PyVal.dict _ => true
  | _ => false

example : safe_json_load ("5".data) = PyVal.int 5 := rfl

example : safe_json_load ("[1, 2]".data) = PyVal.list [PyVal.int 1, PyVal.int 2] := rfl

example : safe_json_load ("not json".data) = PyVal.dict [] := rfl

example : safe_json_load ("null".data) = PyVal.none := rfl

example : json_loads ("-37".data) = Option.some (PyVal.int (-37)) := rfl

example : json_loads ("3.5".data) = Option.none := rfl

/-- A character satisfying the digit class is one of the ten digits. -/
lemma digitCases (c : Char) (h : isDigitC c = true) :
    c = '0' ∨ c = '1' ∨ c = '2' ∨ c = '3' ∨ c = '4' ∨ c = '5' ∨ c = '6' ∨ c = '7' ∨ c = '8' ∨ c = '9' := by
  simp [isDigitC, digitChars] at h
  tauto

/-- Digits are not whitespace. -/
lemma digit_not_space (c : Char) (h : isDigitC c = true) : isSpaceC c = false := by
  rcases digitCases c h with rfl | rfl | rfl | rfl | rfl | rfl | rfl | rfl | rfl | rfl <;> rfl

/-- Digits are not in the passport letter class. -/
lemma digit_not_passLetter (c : Char) (h : isDigitC c = true) : passLetterC c = false := by
  rcases digitCases c h with rfl | rfl | rfl | rfl | rfl | rfl | rfl | rfl | rfl | rfl <;> rfl

/-- Digits are word characters. -/
lemma digit_isWord (c : Char) (h : isDigitC c = true) : isWordC c = true := by
  rcases digitCases c h with rfl | rfl | rfl | rfl | rfl | rfl | rfl | rfl | rfl | rfl <;> rfl

/-- For a key carrying none of the quasi-identifier roles, the combination
stage of the redactor is the identity. -/
lemma bMask_roleless (key before s1 : PyStr) (ap : Nat) (hadr : Bool)
    (h1 : memKeys B_NAME_KEYS key = false)
    (h2 : (key == B_FIRST || key == B_LAST) = false)
    (h3 : memKeys B_EMAIL_KEYS key = false)
    (h4 : memKeys B_ADDRESS_KEYS key = false)
    (h5 : memKeys B_ADDR_PARTS key = false)
    (h6 : memKeys B_DEVICE_KEYS key = false)
    (h7 : memKeys B_IP_KEYS key = false) :
    bMask key before s1 ap hadr = s1 := by
  unfold bMask
  simp [h1, h2, h3, h4, h5, h6, h7]

/-- For a key carrying none of the quasi-identifier roles, redaction is
exactly the four always-on pattern masks, whatever the combination flag. -/
lemma redactStr_roleless (key before : PyStr) (db : Bool) (ap : Nat) (hadr : Bool)
    (h1 : memKeys B_NAME_KEYS key = false)
    (h2 : (key == B_FIRST || key == B_LAST) = false)
    (h3 : memKeys B_EMAIL_KEYS key = false)
    (h4 : memKeys B_ADDRESS_KEYS key = false)
    (h5 : memKeys B_ADDR_PARTS key = false)
    (h6 : memKeys B_DEVICE_KEYS key = false)
    (h7 : memKeys B_IP_KEYS key = false) :
    redactStr key before db ap hadr =
      mask_upi_in (mask_passport_in (mask_aadhar_digits (mask_phone_digits before))) := by
  unfold redactStr
  cases db
  · rfl
  · simp [bMask_roleless key before _ ap hadr h1 h2 h3 h4 h5 h6 h7]

/-- Pointwise relations lift to `Forall₂` against a map. -/
lemma forall₂_map_self {α β : Type} (f : α → β) (R : α → β → Prop) (h : ∀ a, R a (f a)) :
    ∀ l : List α, List.Forall₂ R l (l.map f)
  | [] => List.Forall₂.nil
  | a :: l => List.Forall₂.cons (h a) (forall₂_map_self f R h l)

/-- C1 (counterexample): a record whose only field value is an IPv4 address
under a pattern-free key matches a Pattern Library type (`RE_IPV4`), yet the
direct-hit flag is false and the verdict is false — refuting the claimed
biconditional between the direct-hit flag and matching one of the six
pattern types. -/
theorem c1_counterexample :
    ipv4Search ("192.168.1.1".data) = true ∧
    a_hit_of [("notes".data, PyVal.str ("192.168.1.1".data))] = false ∧
    (process_record [("notes".data, PyVal.str ("192.168.1.1".data))]).2 = false := by
  decide

/-- C1 (amended): the direct-hit flag feeding the verdict is true iff some
field's stringified value (empty for falsy values) matches the phone-like or
national-ID-like pattern — the latter on the whitespace-stripped value, and
neither for fields in the numeric-identifier-exempt set — or matches the
passport-like or payment-handle pattern; the email and IPv4 patterns do not
participate in direct detection. -/
theorem c1_direct_hit_characterization (rec : PyDict) :
    a_hit_of rec =
      rec.any (fun kv =>
        (!memKeys NUMERIC_ID_KEYS kv.1 &&
          (tenDigitsSearch (pyStrOr kv.2) || aadharSearch (stripAllWs (pyStrOr kv.2)))) ||
        passportSearch (pyStrOr kv.2) || upiSearch (pyStrOr kv.2)) := by
  unfold a_hit_of detect_a_in_value
  congr 1
  funext kv
  cases h : memKeys NUMERIC_ID_KEYS kv.1 <;> simp [h, Bool.or_assoc]

/-- C2 (counterexample): the redacted value of a pattern-free field still
contains an unmasked IPv4 address — refuting the claim that every Pattern
Library type (including IPv4) is masked in every output value. -/
theorem c2_counterexample :
    (process_record [("notes".data, PyVal.str ("192.168.1.1".data))]).1 =
      [("notes".data, PyVal.str ("192.168.1.1".data))] ∧
    ipv4Search ("192.168.1.1".data) = true := by
  exact ⟨rfl, by decide⟩

/-- C2 (amended): for every field whose name carries no quasi-identifier
role, the redacted value of any non-absent value is exactly the composition
of the four unconditional masks — phone, national-ID, passport,
payment-handle, in that order — applied to the stringified value; the email
and IPv4 masks are not among the unconditional masks. -/
theorem c2_unconditional_masks (key : PyStr)
    (h1 : memKeys B_NAME_KEYS key = false)
    (h2 : (key == B_FIRST || key == B_LAST) = false)
    (h3 : memKeys B_EMAIL_KEYS key = false)
    (h4 : memKeys B_ADDRESS_KEYS key = false)
    (h5 : memKeys B_ADDR_PARTS key = false)
    (h6 : memKeys B_DEVICE_KEYS key = false)
    (h7 : memKeys B_IP_KEYS key = false) :
    ∀ v : PyVal, v ≠ PyVal.none → ∀ (db : Bool) (ap : Nat) (hadr : Bool),
      redact_value key v db ap hadr =
        PyVal.str (mask_upi_in (mask_passport_in (mask_aadhar_digits (mask_phone_digits (pyStr v))))) := by
  intro v hv db ap hadr
  cases v <;>
    first
      | exact absurd rfl hv
      | exact congrArg PyVal.str (redactStr_roleless key _ db ap hadr h1 h2 h3 h4 h5 h6 h7)

/-- C2 (witness for the amended theorem): the role-less field `notes`
holding an IPv4 address is returned with only the four unconditional masks
applied, which leave the address intact. -/
theorem c2_unconditional_masks_witness :
    redact_value ("notes".data) (PyVal.str ("192.168.1.1".data)) true 0 false =
      PyVal.str (mask_upi_in (mask_passport_in (mask_aadhar_digits
        (mask_phone_digits (pyStr (PyVal.str ("192.168.1.1".data))))))) :=
  c2_unconditional_masks ("notes".data) (by decide) (by decide) (by decide) (by decide)
    (by decide) (by decide) (by decide) (PyVal.str ("192.168.1.1".data))
    (fun h => PyVal.noConfusion h) true 0 false

/-- C3: when the email signal is set and the name, address and
device-or-IP signals are all unset, the override fires: the verdict is
false, the combination-redaction flag is false, and the redacted record is
computed with combination redaction disabled — regardless of any
direct-identifier hit. -/
theorem c3_email_only_override (rec : PyDict)
    (he : (count_b_signals rec).2.1.email = true)
    (hn : (count_b_signals rec).2.1.name = false)
    (ha : (count_b_signals rec).2.1.address = false)
    (hd : (count_b_signals rec).2.1.device_or_ip = false) :
    (process_record rec).2 = false ∧
    (record_ctx rec).2.1 = false ∧
    (process_record rec).1 =
      rec.map (fun kv =>
        (kv.1, redact_value kv.1 kv.2 false (count_b_signals rec).2.2.1 (count_b_signals rec).2.2.2)) := by
  unfold process_record record_ctx
  simp [he, hn, ha, hd]

/-- C3 (witness): an isolated well-formed email field, even though its value
matches the payment-handle direct-identifier pattern, yields verdict false. -/
theorem c3_email_only_override_witness :
    (process_record [("email".data, PyVal.str ("alice@example.com".data))]).2 = false ∧
    a_hit_of [("email".data, PyVal.str ("alice@example.com".data))] = true :=
  ⟨(c3_email_only_override [("email".data, PyVal.str ("alice@example.com".data))]
      (by decide) (by decide) (by decide) (by decide)).1,
   by decide⟩

/-- C5: a field whose name is in the numeric-identifier-exempt set reports
no phone-like and no national-ID-like match, whatever its value contains,
while the passport-like and payment-handle patterns are still scanned on the
same value. -/
theorem c5_exempt_key_detection (key : PyStr) (v : PyVal)
    (h : memKeys NUMERIC_ID_KEYS key = true) :
    (detect_a_in_value key v).phone = false ∧
    (detect_a_in_value key v).aadhar = false ∧
    (detect_a_in_value key v).passport = passportSearch (pyStrOr v) ∧
    (detect_a_in_value key v).upi = upiSearch (pyStrOr v) := by
  unfold detect_a_in_value
  simp [h]

/-- C5 (witness): a ten-digit business reference under `order_id` triggers
neither the phone-like nor the national-ID-like detector, and a passport
code under `order_id` is still detected. -/
theorem c5_exempt_key_detection_witness :
    (detect_a_in_value ("order_id".data) (PyVal.str ("9876543210".data))).phone = false ∧
    (detect_a_in_value ("order_id".data) (PyVal.str ("A1234567".data))).passport =
      passportSearch (pyStrOr (PyVal.str ("A1234567".data))) :=
  ⟨(c5_exempt_key_detection ("order_id".data) (PyVal.str ("9876543210".data)) (by decide)).1,
   (c5_exempt_key_detection ("order_id".data) (PyVal.str ("A1234567".data)) (by decide)).2.2.1⟩

/-- C7: the code contradicts round-trip idempotence.  On the record with
name `1234 5678 9012` and email `a+bc@example.com` the first pass (email-only
override active) masks the name to `XXXX XXXX 9012` and leaves the email
unchanged; on the redacted record the masked name now counts as a full-name
signal, so the second pass enables combination redaction, rewrites the email
to `a+XX@example.com`, and flips the verdict from false to true. -/
theorem c7_second_pass_changes_record :
    (process_record [("name".data, PyVal.str ("1234 5678 9012".data)),
                     ("email".data, PyVal.str ("a+bc@example.com".data))]).1 =
      [("name".data, PyVal.str ("XXXX XXXX 9012".data)),
       ("email".data, PyVal.str ("a+bc@example.com".data))] ∧
    (process_record [("name".data, PyVal.str ("1234 5678 9012".data)),
                     ("email".data, PyVal.str ("a+bc@example.com".data))]).2 = false ∧
    (process_record [("name".data, PyVal.str ("XXXX XXXX 9012".data)),
                     ("email".data, PyVal.str ("a+bc@example.com".data))]).2 = true ∧
    (process_record [("name".data, PyVal.str ("XXXX XXXX 9012".data)),
                     ("email".data, PyVal.str ("a+bc@example.com".data))]).1 ≠
      [("name".data, PyVal.str ("XXXX XXXX 9012".data)),
       ("email".data, PyVal.str ("a+bc@example.com".data))] := by
  refine ⟨rfl, by decide, by decide, ?_⟩
  intro h
  exact absurd (congrArg (fun d => pyStr (dGet d ("email".data))) h) (by decide)

/-- C8 (counterexample): `safe_json_load` on the well-formed JSON text `5`
returns the integer 5, not a field mapping — refuting the claim that the
loading step always yields a field mapping, substituting the empty mapping
whenever the text cannot be parsed into one. -/
theorem c8_counterexample :
    safe_json_load ("5".data) = PyVal.int 5 ∧
    isDictVal (safe_json_load ("5".data)) = false ∧
    safe_json_load ("[1, 2]".data) = PyVal.list [PyVal.int 1, PyVal.int 2] := by
  exact ⟨rfl, by decide, rfl⟩

/-- C8 (amended): the loader substitutes the empty mapping exactly when JSON
parsing fails both on the stripped text and on the quote-repaired retry (a
successfully parsed non-mapping payload is returned as parsed), and
processing the empty mapping yields no direct hit, zero signals, verdict
false and an empty redacted record. -/
theorem c8_parse_failure_empty (raw : PyStr)
    (hp1 : json_loads (stripStr raw) = Option.none)
    (hp2 : json_loads (stripQuotes (replaceDQ (stripStr raw))) = Option.none) :
    safe_json_load raw = PyVal.dict [] ∧
    a_hit_of [] = false ∧
    (count_b_signals []).1 = 0 ∧
    process_record [] = ([], false) := by
  refine ⟨?_, rfl, rfl, rfl⟩
  simp only [safe_json_load, hp1, hp2]

/-- C8 (witness): a malformed payload degrades to the empty mapping. -/
theorem c8_parse_failure_empty_witness :
    safe_json_load ("not json".data) = PyVal.dict [] :=
  (c8_parse_failure_empty ("not json".data) rfl rfl).1

/-- C9: the numeric-identifier exemption affects detection only, not
redaction — for any key in the exempt set, detection reports neither a
phone-like nor a national-ID-like hit on any value, yet redaction still
applies the full unconditional mask chain, including the phone and
national-ID masks, to the stringified value. -/
theorem c9_exempt_redaction (key : PyStr) (h : memKeys NUMERIC_ID_KEYS key = true) :
    (∀ v : PyVal,
      (detect_a_in_value key v).phone = false ∧ (detect_a_in_value key v).aadhar = false) ∧
    ∀ (s : PyStr) (db : Bool) (ap : Nat) (hadr : Bool),
      redact_value key (PyVal.str s) db ap hadr =
        PyVal.str (mask_upi_in (mask_passport_in (mask_aadhar_digits (mask_phone_digits s)))) := by
  constructor
  · intro v
    unfold detect_a_in_value
    simp [h]
  · intro s db ap hadr
    simp only [memKeys, NUMERIC_ID_KEYS, List.any_cons, List.any_nil, Bool.or_eq_true,
      beq_iff_eq, Bool.or_false] at h
    rcases h with rfl | rfl | rfl | rfl | rfl | rfl | rfl | rfl | rfl <;>
      exact congrArg PyVal.str (redactStr_roleless _ s db ap hadr (by decide) (by decide)
        (by decide) (by decide) (by decide) (by decide) (by decide))

/-- C9 (witness): an isolated ten-digit run under the exempt key `order_id`
produces no direct hit but is still phone-masked in the redacted output. -/
theorem c9_exempt_redaction_witness :
    (detect_a_in_value ("order_id".data) (PyVal.str ("9876543210".data))).aadhar = false ∧
    redact_value ("order_id".data) (PyVal.str ("9876543210".data)) false 0 false =
      PyVal.str ("98XXXXXX10".data) := by
  refine ⟨((c9_exempt_redaction ("order_id".data) (by decide)).1
    (PyVal.str ("9876543210".data))).2, ?_⟩
  rw [(c9_exempt_redaction ("order_id".data) (by decide)).2 ("9876543210".data) false 0 false]
  rfl

/-- C10: the output record of `process_record` has exactly the keys of the
input in order; a `None` value is returned as `None`, and every other value
is returned as a string, namely the redaction of its text representation
under the record's combination context. -/
theorem c10_output_shape (rec : PyDict) :
    (process_record rec).1.map Prod.fst = rec.map Prod.fst ∧
    List.Forall₂
      (fun kv out =>
        (kv.2 = PyVal.none → out.2 = PyVal.none) ∧
        (kv.2 ≠ PyVal.none →
          out.2 = PyVal.str (redactStr kv.1 (pyStr kv.2)
            (record_ctx rec).2.1 (record_ctx rec).2.2.1 (record_ctx rec).2.2.2)))
      rec (process_record rec).1 := by
  constructor
  · unfold process_record
    simp
  · unfold process_record
    refine forall₂_map_self _ _ ?_ rec
    intro kv
    dsimp only
    cases kv.2 with
    | none => exact ⟨fun _ => rfl, fun hne => absurd rfl hne⟩
    | bool b => exact ⟨fun hh => (nomatch hh), fun _ => rfl⟩
    | int n => exact ⟨fun hh => (nomatch hh), fun _ => rfl⟩
    | str s => exact ⟨fun hh => (nomatch hh), fun _ => rfl⟩
    | list xs => exact ⟨fun hh => (nomatch hh), fun _ => rfl⟩
    | dict kvs => exact ⟨fun hh => (nomatch hh), fun _ => rfl⟩

/-- C10 (witness): a numeric field is stringified in the output and a `None`
field passes through. -/
theorem c10_output_shape_witness :
    (process_record [("x".data, PyVal.int 42), ("n".data, PyVal.none)]).1.map Prod.fst =
      ([("x".data, PyVal.int 42), ("n".data, PyVal.none)] : PyDict).map Prod.fst :=
  (c10_output_shape [("x".data, PyVal.int 42), ("n".data, PyVal.none)]).1

/-- C4 (counterexample): the passport letter class is `[A-PR-WYa-pr-wy]`,
which contains `I` and `O` but excludes `X`: the code `I1234567` matches and
is masked, while `X1234567` does not match and is left unchanged — refuting
the claim that the restricted set excludes I and O and that `X1234567`
matches. -/
theorem c4_counterexample :
    mask_passport_in ("X1234567".data) = "X1234567".data ∧
    passportSearch ("X1234567".data) = false ∧
    mask_passport_in ("I1234567".data) = "IXXXXXX7".data ∧
    passportSearch ("I1234567".data) = true ∧
    mask_passport_in ("O1234567".data) = "OXXXXXX7".data := by
  decide

/-- C4 (amended): the passport-like matcher accepts exactly one letter from
the class A-P, R-W, Y (upper or lower case; i.e. it excludes Q, X, Z and
their lowercase forms) followed by exactly 7 digits as a whole token: for any
character `c` and digits `d1..d7`, the token `c d1..d7` matches iff `c` is in
that class, in which case the mask keeps the first and last characters and
replaces the middle six; in particular `I1234567` and `O1234567` match while
`X1234567` does not. -/
theorem c4_passport_matcher_characterization
    (c d1 d2 d3 d4 d5 d6 d7 : Char)
    (h1 : isDigitC d1 = true) (h2 : isDigitC d2 = true) (h3 : isDigitC d3 = true)
    (h4 : isDigitC d4 = true) (h5 : isDigitC d5 = true) (h6 : isDigitC d6 = true)
    (h7 : isDigitC d7 = true) :
    passportSearch [c, d1, d2, d3, d4, d5, d6, d7] = passLetterC c ∧
    mask_passport_in [c, d1, d2, d3, d4, d5, d6, d7] =
      (if passLetterC c then c :: 'X' :: 'X' :: 'X' :: 'X' :: 'X' :: 'X' :: [d7]
       else [c, d1, d2, d3, d4, d5, d6, d7]) ∧
    passLetterC 'I' = true ∧ passLetterC 'O' = true ∧
    passLetterC 'Q' = false ∧ passLetterC 'X' = false ∧ passLetterC 'Z' = false := by
  refine ⟨?_, ?_, by decide, by decide, by decide, by decide, by decide⟩ <;>
    cases hc : passLetterC c <;>
      simp [passportSearch, mask_passport_in, reSearch, reSub, passportAtt,
        prevIsWord, headIsWord, sixX, hc, h1, h2, h3, h4, h5, h6, h7]

/-- C4 (witness for the amended theorem): instantiating the characterization
at `I` and the digits 1..7 shows `I1234567` is matched and masked. -/
theorem c4_passport_matcher_characterization_witness :
    passportSearch [('I' : Char), '1', '2', '3', '4', '5', '6', '7'] = passLetterC 'I' :=
  (c4_passport_matcher_characterization 'I' '1' '2' '3' '4' '5' '6' '7'
    (by decide) (by decide) (by decide) (by decide) (by decide) (by decide) (by decide)).1

/-- C6 (counterexample): on `123456 789012` — twelve digits in a 6-6
whitespace grouping — the detector reports a national-ID hit (it strips all
whitespace before matching) but the masking transform, whose normalizer only
collapses a 4-4-4 grouping, leaves every digit visible — refuting the claim
that detection and masking treat exactly the same values as
national-ID-like. -/
theorem c6_counterexample :
    (detect_a_in_value ("notes".data) (PyVal.str ("123456 789012".data))).aadhar = true ∧
    mask_aadhar_digits ("123456 789012".data) = "123456 789012".data := by
  decide

/-- C6 (amended): detection strips all whitespace before searching for a
bare 12-digit run, so any whitespace-broken 12-digit grouping is detected,
while masking only collapses the 4-4-4 grouping; on the values where the two
sides agree — a contiguous 12-digit run, or a 4-4-4 grouping separated by
single spaces — the mask rewrites the value so that only the final 4 of the
12 digits remain visible. -/
theorem c6_aadhar_detect_mask_agreement
    (c1 c2 c3 c4 c5 c6 c7 c8 c9 c10 c11 c12 : Char)
    (h1 : isDigitC c1 = true) (h2 : isDigitC c2 = true) (h3 : isDigitC c3 = true)
    (h4 : isDigitC c4 = true) (h5 : isDigitC c5 = true) (h6 : isDigitC c6 = true)
    (h7 : isDigitC c7 = true) (h8 : isDigitC c8 = true) (h9 : isDigitC c9 = true)
    (h10 : isDigitC c10 = true) (h11 : isDigitC c11 = true) (h12 : isDigitC c12 = true) :
    aadharSearch (stripAllWs [c1, c2, c3, c4, c5, c6, c7, c8, c9, c10, c11, c12]) = true ∧
    aadharSearch (stripAllWs
      [c1, c2, c3, c4, ' ', c5, c6, c7, c8, ' ', c9, c10, c11, c12]) = true ∧
    mask_aadhar_digits [c1, c2, c3, c4, c5, c6, c7, c8, c9, c10, c11, c12] =
      "XXXX XXXX ".data ++ [c9, c10, c11, c12] ∧
    mask_aadhar_digits [c1, c2, c3, c4, ' ', c5, c6, c7, c8, ' ', c9, c10, c11, c12] =
      "XXXX XXXX ".data ++ [c9, c10, c11, c12] ∧
    (detect_a_in_value ("dob".data)
      (PyVal.str [c1, c2, c3, c4, ' ', c5, c6, c7, c8, ' ', c9, c10, c11, c12])).aadhar = true := by
  have hs1 := digit_not_space c1 h1
  have hs5 := digit_not_space c5 h5
  have hs6 := digit_not_space c6 h6
  have hs7 := digit_not_space c7 h7
  have hs8 := digit_not_space c8 h8
  have hs9 := digit_not_space c9 h9
  have hs10 := digit_not_space c10 h10
  have hs11 := digit_not_space c11 h11
  have hs12 := digit_not_space c12 h12
  have hs2 := digit_not_space c2 h2
  have hs3 := digit_not_space c3 h3
  have hs4 := digit_not_space c4 h4
  have hsp : isSpaceC ' ' = true := rfl
  refine ⟨?_, ?_, ?_, ?_, ?_⟩ <;>
    simp [detect_a_in_value, pyStrOr, pyTruthy, pyStr, memKeys, NUMERIC_ID_KEYS,
      stripAllWs, List.filter, aadharSearch, mask_aadhar_digits, reSearch, reSub,
      aadharAtt, norm444Att, take4d, prevNotDigit, headNotDigit, List.dropWhile,
      hsp, hs1, hs2, hs3, hs4, hs5, hs6, hs7, hs8, hs9, hs10, hs11, hs12,
      h1, h2, h3, h4, h5, h6, h7, h8, h9, h10, h11, h12]

/-- C6 (witness for the amended theorem): instantiating the agreement at the
digits of `234567890123` in 4-4-4 grouping masks to `XXXX XXXX 0123`. -/
theorem c6_aadhar_detect_mask_agreement_witness :
    mask_aadhar_digits [('2' : Char), '3', '4', '5', ' ', '6', '7', '8', '9', ' ', '0', '1', '2', '3'] =
      "XXXX XXXX ".data ++ [('0' : Char), '1', '2', '3'] :=
  (c6_aadhar_detect_mask_agreement '2' '3' '4' '5' '6' '7' '8' '9' '0' '1' '2' '3'
    (by decide) (by decide) (by decide) (by decide) (by decide) (by decide)
    (by decide) (by decide) (by decide) (by decide) (by decide) (by decide)).2.2.2.1
